import Mathlib

/-!
Verification of the measurement retrieval and aggregation layer of the
fastmcp-sonarqube-metrics server (src/server.py), as a shallow embedding.

Python dictionaries are modelled as functions `K → Option V` (lookup
semantics); Python exceptions raised by the tools are modelled as the
`Except PyExc` monad; an HTTP exchange is modelled by its parsed outcome
(`HttpOutcome`): the body on success, the status code on an HTTP error,
or a transport failure.
-/

/-- The kinds of Python exception that src/server.py raises: ValueError,
PermissionError, RuntimeError, ConnectionError, and NameError (the
UnboundLocalError raised when a local variable is read before assignment).
This is the closed set of error kinds the code can actually surface. -/
inductive PyKind where
  | valueError
  | permissionError
  | runtimeError
  | connectionError
  | nameError
  deriving DecidableEq, Repr

/-- A Python exception as raised by src/server.py: a kind together with its
message text. -/
inductive PyExc where
  | valueError (msg : String)
  | permissionError (msg : String)
  | runtimeError (msg : String)
  | connectionError (msg : String)
  | nameError (msg : String)
  deriving DecidableEq, Repr

/-- The kind (Python exception class) of an exception, forgetting the message. -/
def PyExc.kind : PyExc → PyKind
  | .valueError _ => .valueError
  | .permissionError _ => .permissionError
  | .runtimeError _ => .runtimeError
  | .connectionError _ => .connectionError
  | .nameError _ => .nameError

/-- Outcome of one HTTP GET as the code observes it after
`response.raise_for_status()`: a parsed 2xx body, an `httpx.HTTPStatusError`
carrying the status code, or an `httpx.RequestError` (transport failure). -/
inductive HttpOutcome (α : Type) where
  | ok (body : α)
  | httpError (status : Nat)
  | netError
  deriving DecidableEq, Repr

/-- A Python `str` dictionary modelled by its lookup function. -/
def StrDict : Type := String → Option String

/-- The empty dictionary `{}`. -/
def emptyStrDict : StrDict := fun _ => none

/-- The fixed default metric key list of src/server.py (lines 29-35),
in its fixed order. -/
def SONARQUBE_METRIC_KEYS : List String :=
  ["bugs", "vulnerabilities", "code_smells", "coverage", "duplicated_lines_density"]

/-- The base64 alphabet (RFC 4648), used by the credential encoder. -/
def base64Alphabet : List Char :=
  "ABCDEFGHIJKLMNOPQRSTUVWXYZabcdefghijklmnopqrstuvwxyz0123456789+/".toList

/-- Character of the base64 alphabet at index `n` (n < 64). -/
def b64Char (n : Nat) : Char := base64Alphabet.getD n '='

/-- Base64 encoding of a byte list, three bytes at a time with `=` padding. -/
def b64Groups : List Nat → List Char
  | [] => []
  | [a] => [b64Char (a / 4), b64Char (a % 4 * 16), '=', '=']
  | [a, b] => [b64Char (a / 4), b64Char (a % 4 * 16 + b / 16), b64Char (b % 16 * 4), '=']
  | a :: b :: c :: rest =>
      b64Char (a / 4) :: b64Char (a % 4 * 16 + b / 16) ::
        b64Char (b % 16 * 4 + c / 64) :: b64Char (c % 64) :: b64Groups rest

/-- Models `base64.b64encode(s.encode()).decode("utf-8")`: base64 over the
UTF-8 bytes of `s`. -/
def b64encode (s : String) : String :=
  String.mk (b64Groups (s.toUTF8.toList.map (fun b => b.toNat)))

/-- Models the credential encoder used everywhere in src/server.py:
`base64.b64encode(f"{token}:".encode()).decode("utf-8")` — basic auth with
the token as user and an empty password. -/
def encodeBasicToken (token : String) : String := b64encode (token ++ ":")

/-- Models the header construction shared by get_status (lines 48-54),
get_sonarqube_metrics (116-120), get_sonarqube_metrics_history (201-207) and
get_sonarqube_component_tree_metrics (285-291): `base64_token` is assigned
only under `if sonarqube_token:`, yet the `Authorization` header always
interpolates it, so when no token is configured Python raises
NameError/UnboundLocalError while building the headers, before any request. -/
def conditional_basic_headers (token : Option String) :
    Except PyExc (List (String × String)) :=
  match token with
  | some t =>
      .ok [("Accept", "application/json"),
           ("Authorization", "Basic " ++ encodeBasicToken t)]
  | none =>
      .error (.nameError "name 'base64_token' is not defined")

/-- A raw measure record from a server response: `{"metric": ..., "value": ...?}`
with the value possibly absent. -/
structure RawMeasure where
  metric : String
  value : Option String
  deriving DecidableEq, Repr

/-- Models the dict comprehension of src/server.py lines 150-153 (and its twin
at lines 328-331): `{measure["metric"]: measure.get("value", "N/A") for measure
in measures}` — iterate the measures in order, keying by metric identifier and
substituting "N/A" for a missing value, later occurrences overwriting. -/
def normalizeMeasures (measures : List RawMeasure) : StrDict :=
  measures.foldl
    (fun d m => fun k => if k = m.metric then some (m.value.getD "N/A") else d k)
    emptyStrDict

/-- Generic description of a point-update fold (the dict-comprehension
pattern): the final lookup at `k` is the value of the last list element whose
key is `k`, else the initial dictionary's value. -/
theorem foldl_pointUpdate {α K V : Type} [DecidableEq K]
    (keyOf : α → K) (val : α → V) :
    ∀ (l : List α) (d : K → Option V) (k : K),
      l.foldl (fun r c => fun p => if p = keyOf c then some (val c) else r p) d k
        = ((l.reverse.find? (fun c => decide (keyOf c = k))).map val).or (d k) := by
  intro l
  induction l with
  | nil => intro d k; simp
  | cons c l ih =>
      intro d k
      simp only [List.foldl_cons, List.reverse_cons, List.find?_append]
      rw [ih]
      cases hfind : l.reverse.find? (fun c => decide (keyOf c = k)) with
      | some a => simp [hfind, Option.or]
      | none =>
          simp only [hfind, Option.none_or, Option.map_none']
          rcases eq_or_ne k (keyOf c) with hk | hk
          · subst hk
            simp [List.find?, Option.or]
          · rw [if_neg hk]
            simp [List.find?, Ne.symm hk, Option.or]

/-- Models Python str.upper() for the ASCII strings the code handles:
uppercase every character. -/
def pyUpper (s : String) : String := String.mk (s.toList.map Char.toUpper)

/-- Models Python str.lower() for the ASCII strings the code handles:
lowercase every character. -/
def pyLower (s : String) : String := String.mk (s.toList.map Char.toLower)

/-- Models the 2xx branch of get_status (src/server.py lines 62-72):
`status = response.json().get("status", "UNKNOWN").upper()` followed by a
3-way lookup on UP, DOWN, RESTARTING, with a generic fallback message for
any other value (never an exception). -/
def get_status_message (statusField : Option String) : String :=
  let status := pyUpper (statusField.getD "UNKNOWN")
  if status = "UP" then "🟢 SonarQube server is UP and running."
  else if status = "DOWN" then "🔴 SonarQube server is DOWN."
  else if status = "RESTARTING" then "🟡 SonarQube server is restarting..."
  else "⚠️ SonarQube status: " ++ status

/-- Models the httpx.HTTPStatusError handler of get_status (src/server.py
lines 73-82): 401 and 403 both raise PermissionError (differing only in
message), anything else RuntimeError. -/
def classify_get_status (st : Nat) : PyExc :=
  if st = 401 then .permissionError "Authentication failed. Check your token."
  else if st = 403 then .permissionError "Access denied. Check token roles."
  else .runtimeError ("SonarQube API error: " ++ toString st)

/-- Models get_status (src/server.py lines 40-94): header construction first
(raising NameError when no token is configured, lines 48-54), then one health
check request; the 2xx body's status field goes through get_status_message;
HTTP errors are classified by classify_get_status; transport failure raises
ConnectionError. -/
def get_status (token : Option String) (url : String)
    (server : HttpOutcome (Option String)) : Except PyExc String :=
  match conditional_basic_headers token with
  | .error e => .error e
  | .ok _ =>
      match server with
      | .ok statusField => .ok (get_status_message statusField)
      | .httpError st => .error (classify_get_status st)
      | .netError => .error (.connectionError ("Failed to connect to SonarQube at " ++ url))

/-- Models the httpx.HTTPStatusError handler of get_sonarqube_metrics
(src/server.py lines 158-171): 404 raises ValueError; 401 and 403 both raise
PermissionError (differing only in message); anything else RuntimeError. -/
def classify_get_sonarqube_metrics (project_key : String) (st : Nat) : PyExc :=
  if st = 404 then
    .valueError ("Project '" ++ project_key ++ "' not found in SonarQube.")
  else if st = 401 then
    .permissionError "SonarQube authentication failed. Check token."
  else if st = 403 then
    .permissionError "SonarQube authentication failed. Access denied: Token doesn't have permission. Check roles."
  else .runtimeError ("SonarQube API error: " ++ toString st)

/-- The component object of a /api/measures/component body: an optional
"measures" list (`component_data.get("measures", [])`). -/
structure MetricsComponent where
  measures : Option (List RawMeasure)
  deriving DecidableEq, Repr

/-- The parsed body of /api/measures/component: an optional "component"
object (`data.get("component")`), absent or falsy modelled as `none`. -/
structure MetricsBody where
  component : Option MetricsComponent
  deriving DecidableEq, Repr

/-- Models get_sonarqube_metrics (src/server.py lines 96-180): an empty
project_key returns the empty dict before headers are built or any request is
made (lines 110-113); headers may raise NameError when no token is configured
(lines 116-120); a missing component raises ValueError; empty measures return
the empty dict; otherwise the measures are normalized by the dict
comprehension (lines 150-153); HTTP errors are classified by
classify_get_sonarqube_metrics; transport failure raises ConnectionError. -/
def get_sonarqube_metrics (token : Option String) (url : String)
    (server : HttpOutcome MetricsBody) (project_key : String) :
    Except PyExc StrDict :=
  if project_key = "" then .ok emptyStrDict
  else
    match conditional_basic_headers token with
    | .error e => .error e
    | .ok _ =>
        match server with
        | .ok data =>
            match data.component with
            | none =>
                .error (.valueError ("Project '" ++ project_key ++
                  "' not found or has no component data in SonarQube."))
            | some comp =>
                let measures := comp.measures.getD []
                if measures.isEmpty then .ok emptyStrDict
                else .ok (normalizeMeasures measures)
        | .httpError st => .error (classify_get_sonarqube_metrics project_key st)
        | .netError =>
            .error (.connectionError ("Could not connect to SonarQube at " ++ url))

/-- C5: for every raw measure list, normalization yields a mapping whose key
set is exactly the input metric identifiers, with "N/A" substituted for a
missing value; for a duplicated metric identifier the later occurrence wins
(the lookup equals the value of the last matching input measure); the empty
input yields the empty mapping rather than an error. -/
theorem normalize_keyset_lastwins_na :
    (∀ ms k, normalizeMeasures ms k
        = (ms.reverse.find? (fun m => decide (m.metric = k))).map
            (fun m => m.value.getD "N/A"))
    ∧ (∀ ms k, (normalizeMeasures ms k).isSome ↔ k ∈ ms.map RawMeasure.metric)
    ∧ normalizeMeasures [] = emptyStrDict := by
  have main : ∀ ms k, normalizeMeasures ms k
      = (ms.reverse.find? (fun m => decide (m.metric = k))).map
          (fun m => m.value.getD "N/A") := by
    intro ms k
    have h := foldl_pointUpdate (fun m : RawMeasure => m.metric)
      (fun m : RawMeasure => m.value.getD "N/A") ms emptyStrDict k
    refine h.trans ?_
    cases ms.reverse.find? (fun m => decide (m.metric = k)) with
    | none => rfl
    | some a => rfl
  refine ⟨main, ?_, rfl⟩
  intro ms k
  rw [main ms k]
  have hsome : (Option.map (fun m : RawMeasure => m.value.getD "N/A")
      (ms.reverse.find? (fun m => decide (m.metric = k)))).isSome
      = (ms.reverse.find? (fun m => decide (m.metric = k))).isSome := by
    cases ms.reverse.find? (fun m => decide (m.metric = k)) with
    | none => rfl
    | some a => rfl
  rw [hsome, List.find?_isSome]
  simp [List.mem_map, eq_comm]

/-- C9: on a 2xx response, get_status maps the status field through the 3-way
lookup on UP, DOWN and RESTARTING to the corresponding human message, and any
other (uppercased) value - including an absent field, which defaults to
UNKNOWN - yields the generic fallback message; it always returns `.ok`, never
an exception, on the 2xx path. -/
theorem get_status_two_xx_mapping (tk url s : String)
    (hup : pyUpper s ≠ "UP") (hdown : pyUpper s ≠ "DOWN")
    (hrest : pyUpper s ≠ "RESTARTING") :
    get_status (some tk) url (.ok (some "UP"))
        = .ok "🟢 SonarQube server is UP and running."
    ∧ get_status (some tk) url (.ok (some "DOWN"))
        = .ok "🔴 SonarQube server is DOWN."
    ∧ get_status (some tk) url (.ok (some "RESTARTING"))
        = .ok "🟡 SonarQube server is restarting..."
    ∧ get_status (some tk) url (.ok (some s))
        = .ok ("⚠️ SonarQube status: " ++ pyUpper s)
    ∧ get_status (some tk) url (.ok none)
        = .ok "⚠️ SonarQube status: UNKNOWN" := by
  refine ⟨rfl, rfl, rfl, ?_, rfl⟩
  simp only [get_status, conditional_basic_headers, get_status_message,
    Option.getD_some]
  rw [if_neg hup, if_neg hdown, if_neg hrest]

/-- Witness for get_status_two_xx_mapping at the unrecognized status
"BOOTING": the fallback message is returned. -/
theorem get_status_two_xx_mapping_witness :
    pyUpper "Booting" ≠ "UP"
    ∧ get_status (some "tok") "http://sq" (.ok (some "Booting"))
        = .ok ("⚠️ SonarQube status: " ++ pyUpper "Booting") := by
  exact ⟨by decide,
    (get_status_two_xx_mapping "tok" "http://sq" "Booting"
      (by decide) (by decide) (by decide)).2.2.2.1⟩

/-- C8 counterexample: a 401 and a 403 response classify to the same Python
error kind, PermissionError, in both the get_status handler and the
get_sonarqube_metrics handler, so a caller branching only on the kind (not on
the message text) cannot distinguish them - there are no distinct
Unauthenticated and Forbidden kinds in the code. -/
theorem classify_401_403_same_kind_counterexample :
    (classify_get_sonarqube_metrics "proj" 401).kind
        = (classify_get_sonarqube_metrics "proj" 403).kind
    ∧ (classify_get_status 401).kind = (classify_get_status 403).kind
    ∧ (classify_get_sonarqube_metrics "proj" 401).kind
        = PyKind.permissionError := by
  refine ⟨rfl, rfl, rfl⟩

/-- C8 amended: 401 and 403 responses both classify to the PermissionError
kind (distinguished only by message text, the two exception values being
unequal); in get_sonarqube_metrics a 404 classifies to ValueError, and any
other status to RuntimeError; in get_status any status other than 401 and 403
classifies to RuntimeError. The closed set of kinds is PyKind, with no
separate Unauthenticated and Forbidden members. -/
theorem classify_status_kind_mapping (pk : String) (st : Nat)
    (h401 : st ≠ 401) (h403 : st ≠ 403) (h404 : st ≠ 404) :
    (classify_get_sonarqube_metrics pk 401).kind = PyKind.permissionError
    ∧ (classify_get_sonarqube_metrics pk 403).kind = PyKind.permissionError
    ∧ (classify_get_sonarqube_metrics pk 404).kind = PyKind.valueError
    ∧ (classify_get_sonarqube_metrics pk st).kind = PyKind.runtimeError
    ∧ (classify_get_status 401).kind = PyKind.permissionError
    ∧ (classify_get_status 403).kind = PyKind.permissionError
    ∧ (classify_get_status st).kind = PyKind.runtimeError
    ∧ classify_get_sonarqube_metrics pk 401 ≠ classify_get_sonarqube_metrics pk 403
    ∧ classify_get_status 401 ≠ classify_get_status 403 := by
  refine ⟨?_, ?_, ?_, ?_, rfl, rfl, ?_, ?_, by decide⟩
  · simp [classify_get_sonarqube_metrics, PyExc.kind]
  · simp [classify_get_sonarqube_metrics, PyExc.kind]
  · simp [classify_get_sonarqube_metrics, PyExc.kind]
  · simp [classify_get_sonarqube_metrics, PyExc.kind, h401, h403, h404]
  · simp [classify_get_status, PyExc.kind, h401, h403]
  · simp [classify_get_sonarqube_metrics]

/-- Witness for classify_status_kind_mapping at status 500: it classifies to
the RuntimeError kind in both handlers. -/
theorem classify_status_kind_mapping_witness :
    (500 ≠ 401 ∧ 500 ≠ 403 ∧ 500 ≠ 404)
    ∧ (classify_get_sonarqube_metrics "proj" 500).kind = PyKind.runtimeError
    ∧ (classify_get_status 500).kind = PyKind.runtimeError := by
  refine ⟨by decide, ?_, ?_⟩
  · exact (classify_status_kind_mapping "proj" 500
      (by decide) (by decide) (by decide)).2.2.2.1
  · exact (classify_status_kind_mapping "proj" 500
      (by decide) (by decide) (by decide)).2.2.2.2.2.2.1

/-- One entry of a measure's "history" array: optional date and value fields
(`entry.get("date")`, `entry.get("value", "N/A")`). -/
structure HistEntry where
  date : Option String
  value : Option String
  deriving DecidableEq, Repr

/-- One element of the "measures" array of /api/measures/search_history:
an optional "history" array. -/
structure HistMeasure where
  history : Option (List HistEntry)
  deriving DecidableEq, Repr

/-- The parsed body of /api/measures/search_history: an optional "measures"
array (`data.get("measures")`). -/
structure HistBody where
  measures : Option (List HistMeasure)
  deriving DecidableEq, Repr

/-- Models src/server.py line 231:
`history = data.get("measures", [])[0].get("history", []) if data.get("measures") else []`
- the index-0 access is guarded by the truthiness of the "measures" field
(None and the empty list are both falsy), so it is taken only when the array
is non-empty; otherwise the history is the empty list. -/
def extract_history (body : HistBody) : List HistEntry :=
  match body.measures with
  | some (m :: _) => m.history.getD []
  | _ => []

/-- One history sample as built on src/server.py lines 233-236:
`{"date": entry.get("date"), "value": entry.get("value", "N/A")}`. -/
def histSample (e : HistEntry) : Option String × String :=
  (e.date, e.value.getD "N/A")

/-- The error, if any, that one per-metric history request raises when it is
reached inside the loop (src/server.py lines 241-256): an HTTP status error
is classified exactly as in get_sonarqube_metrics (the two handlers raise
identical messages), a transport failure raises ConnectionError. -/
def history_request_error (project_key url : String) :
    HttpOutcome HistBody → Option PyExc
  | .ok _ => none
  | .httpError st => some (classify_get_sonarqube_metrics project_key st)
  | .netError => some (.connectionError ("Could not connect to SonarQube at " ++ url))

/-- The per-metric loop of get_sonarqube_metrics_history (src/server.py lines
212-239): one request per metric key, in order; on the first failing request
the classified exception propagates out of the whole function (the `results`
accumulated so far are local and are discarded); on success the extracted
history is stored under the metric key. -/
def history_loop (project_key url : String)
    (server : String → HttpOutcome HistBody) :
    List String → (String → Option (List (Option String × String))) →
    Except PyExc (String → Option (List (Option String × String)))
  | [], results => .ok results
  | metric :: rest, results =>
      match server metric with
      | .ok data =>
          let samples := (extract_history data).map histSample
          history_loop project_key url server rest
            (fun k => if k = metric then some samples else results k)
      | .httpError st => .error (classify_get_sonarqube_metrics project_key st)
      | .netError =>
          .error (.connectionError ("Could not connect to SonarQube at " ++ url))

/-- Models get_sonarqube_metrics_history (src/server.py lines 182-262): an
empty project_key returns the empty dict before any header or request (lines
195-197); headers may raise NameError when no token is configured (lines
201-207); then the per-metric loop over SONARQUBE_METRIC_KEYS in its fixed
order. -/
def get_sonarqube_metrics_history (token : Option String) (url : String)
    (server : String → HttpOutcome HistBody) (project_key : String) :
    Except PyExc (String → Option (List (Option String × String))) :=
  if project_key = "" then .ok (fun _ => none)
  else
    match conditional_basic_headers token with
    | .error e => .error e
    | .ok _ =>
        history_loop project_key url server SONARQUBE_METRIC_KEYS (fun _ => none)

/-- The samples a metric's request would contribute when it succeeds
(proof-side helper). -/
def okSamples (server : String → HttpOutcome HistBody) (j : String) :
    Option (List (Option String × String)) :=
  match server j with
  | .ok body => some ((extract_history body).map histSample)
  | _ => none

/-- Helper: the history loop fails with the classified error of the first
failing metric of the iteration order, whatever was accumulated before. -/
theorem history_loop_first_error (pk url : String)
    (server : String → HttpOutcome HistBody) :
    ∀ (keys : List String) acc (k0 : String) (e : PyExc),
      keys.find? (fun k => (history_request_error pk url (server k)).isSome) = some k0 →
      history_request_error pk url (server k0) = some e →
      history_loop pk url server keys acc = .error e := by
  intro keys
  induction keys with
  | nil => intro acc k0 e hfind _; simp at hfind
  | cons m rest ih =>
      intro acc k0 e hfind he
      by_cases hm : (history_request_error pk url (server m)).isSome
      · rw [List.find?_cons_of_pos _ (by simpa using hm)] at hfind
        injection hfind with hk0
        subst hk0
        cases hsm : server m with
        | ok body => rw [hsm] at hm; simp [history_request_error] at hm
        | httpError st =>
            rw [hsm] at he
            simp only [history_request_error] at he
            injection he with he'
            simp [history_loop, hsm, he']
        | netError =>
            rw [hsm] at he
            simp only [history_request_error] at he
            injection he with he'
            simp [history_loop, hsm, he']
      · rw [List.find?_cons_of_neg _ (by simpa using hm)] at hfind
        cases hsm : server m with
        | ok body =>
            simp only [history_loop, hsm]
            exact ih _ k0 e hfind he
        | httpError st => rw [hsm] at hm; simp [history_request_error] at hm
        | netError => rw [hsm] at hm; simp [history_request_error] at hm

/-- C7: a classified failure on any single per-metric history request aborts
the whole aggregation with that metric's error (the first failing metric in
the fixed iteration order): the function returns that error and never a
partial mapping of the earlier metrics' results. -/
theorem metrics_history_fail_fast (token url pk : String)
    (server : String → HttpOutcome HistBody) (k0 : String) (e : PyExc)
    (hpk : pk ≠ "")
    (hfind : SONARQUBE_METRIC_KEYS.find?
        (fun k => (history_request_error pk url (server k)).isSome) = some k0)
    (he : history_request_error pk url (server k0) = some e) :
    get_sonarqube_metrics_history (some token) url server pk = .error e := by
  simp only [get_sonarqube_metrics_history, if_neg hpk, conditional_basic_headers]
  exact history_loop_first_error pk url server SONARQUBE_METRIC_KEYS _ k0 e hfind he

/-- Witness for metrics_history_fail_fast: with a server that succeeds for
"bugs" but returns HTTP 500 for "vulnerabilities", the whole aggregation
returns the classified RuntimeError and no partial mapping. -/
theorem metrics_history_fail_fast_witness :
    get_sonarqube_metrics_history (some "tok") "http://sq"
        (fun k => if k = "vulnerabilities" then .httpError 500
                  else .ok { measures := none })
        "proj"
      = .error (.runtimeError ("SonarQube API error: " ++ toString 500)) := by
  exact metrics_history_fail_fast "tok" "http://sq" "proj"
    (fun k => if k = "vulnerabilities" then .httpError 500
              else .ok { measures := none })
    "vulnerabilities" (.runtimeError ("SonarQube API error: " ++ toString 500))
    (by decide) (by decide) (by decide)

/-- Helper: when every metric's request succeeds, the history loop returns a
mapping holding, for each metric of the key list, the samples extracted from
that metric's response, and the initial accumulator elsewhere. -/
theorem history_loop_all_ok (pk url : String)
    (server : String → HttpOutcome HistBody) :
    ∀ (keys : List String) acc,
      (∀ j ∈ keys, (history_request_error pk url (server j)).isNone) →
      history_loop pk url server keys acc
        = .ok (fun j => if j ∈ keys then okSamples server j else acc j) := by
  intro keys
  induction keys with
  | nil =>
      intro acc _
      simp only [history_loop, List.not_mem_nil, if_false]
  | cons m rest ih =>
      intro acc hok
      cases hsm : server m with
      | ok body =>
          simp only [history_loop, hsm]
          rw [ih _ (fun j hj => hok j (List.mem_cons_of_mem m hj))]
          congr 1
          funext j
          by_cases hjr : j ∈ rest
          · simp [hjr, List.mem_cons]
          · by_cases hjm : j = m
            · subst hjm
              simp [hjr, List.mem_cons, okSamples, hsm]
            · simp [hjr, hjm, List.mem_cons]
      | httpError st =>
          have := hok m (List.mem_cons_self m rest)
          rw [hsm] at this
          simp [history_request_error] at this
      | netError =>
          have := hok m (List.mem_cons_self m rest)
          rw [hsm] at this
          simp [history_request_error] at this

/-- C10: when every per-metric request succeeds and the response for metric
`k` has an absent or empty "measures" array, the guarded extraction maps `k`
to the empty sample list - the index-0 access is never taken on an empty
array and the whole aggregation still succeeds. -/
theorem history_missing_measures_guard (token url pk : String)
    (server : String → HttpOutcome HistBody) (k : String) (body : HistBody)
    (hpk : pk ≠ "")
    (hok : ∀ j ∈ SONARQUBE_METRIC_KEYS,
        (history_request_error pk url (server j)).isNone)
    (hk : k ∈ SONARQUBE_METRIC_KEYS)
    (hbody : server k = .ok body)
    (hmeas : body.measures = none ∨ body.measures = some []) :
    (get_sonarqube_metrics_history (some token) url server pk).map (fun f => f k)
      = .ok (some []) := by
  simp only [get_sonarqube_metrics_history, if_neg hpk, conditional_basic_headers]
  rw [history_loop_all_ok pk url server SONARQUBE_METRIC_KEYS _ hok]
  have hexts : okSamples server k = some [] := by
    have hext : extract_history body = [] := by
      rcases hmeas with h | h <;> simp [extract_history, h]
    simp [okSamples, hbody, hext]
  simp [Except.map, hk, hexts]

/-- Witness for history_missing_measures_guard: a server whose "coverage"
response has an empty "measures" array; the aggregation succeeds and maps
"coverage" to the empty sample list. -/
theorem history_missing_measures_guard_witness :
    (get_sonarqube_metrics_history (some "tok") "http://sq"
        (fun j => if j = "coverage" then .ok { measures := some [] }
                  else .ok { measures := none })
        "proj").map (fun f => f "coverage")
      = .ok (some []) := by
  exact history_missing_measures_guard "tok" "http://sq" "proj"
    (fun j => if j = "coverage" then .ok { measures := some [] }
              else .ok { measures := none })
    "coverage" { measures := some [] }
    (by decide) (by intro j hj; fin_cases hj <;> decide) (by decide)
    (by decide) (Or.inr rfl)

/-- One component record of a /api/measures/component_tree page: its key, an
optional hierarchical path, and its "measures" array. -/
structure Component where
  key : String
  path : Option String
  measures : List RawMeasure
  deriving DecidableEq, Repr

/-- Models src/server.py line 327: `path = comp.get("path", key)` - the
aggregation key prefers the component's path and falls back to its key when
the path is absent. -/
def pathOf (c : Component) : String := c.path.getD c.key

/-- The parsed body of one /api/measures/component_tree page: the reported
total (`data.get("paging", {}).get("total", 0)`, defaulting to 0) and the
"components" array (`data.get("components", [])`). -/
structure PageResp where
  total : Nat
  components : List Component
  deriving DecidableEq, Repr

/-- The component-tree results dictionary: ComponentPath to normalized
metrics, modelled by its lookup function. -/
def CompDict : Type := String → Option StrDict

/-- The pagination loop of get_sonarqube_component_tree_metrics (src/server.py
lines 295-341), with the number of page requests it makes added as the first
component of the result (instrumentation; the Python code returns only the
results dict). `totalOpt` is the `total` variable: None until the first
response sets it, then fixed, so later pages' reported totals are ignored.
Each iteration requests the page, sets total if still unknown, stops if the
page has no components, writes each component's normalized metrics under its
path (lines 325-332, overwriting earlier entries for the same path), stops
when `page * page_size >= total` and otherwise continues with `page + 1`.
The hypothesis `0 < ps` makes the recursion well-founded; for `ps = 0` the
Python loop can genuinely diverge. -/
def tree_loop (server : Nat → PageResp) (ps : Nat) (hps : 0 < ps)
    (totalOpt : Option Nat) (page : Nat) (results : CompDict) : Nat × CompDict :=
  if (server page).components.isEmpty then (1, results)
  else
    let results2 := (server page).components.foldl
      (fun r c => fun p =>
        if p = pathOf c then some (normalizeMeasures c.measures) else r p)
      results
    if h : totalOpt.getD (server page).total ≤ page * ps then (1, results2)
    else
      let r := tree_loop server ps hps (some (totalOpt.getD (server page).total))
        (page + 1) results2
      (r.1 + 1, r.2)
termination_by (totalOpt.getD (server page).total) - page * ps
decreasing_by
  simp only [Option.getD_some]
  have hmul : (page + 1) * ps = page * ps + ps := by
    rw [Nat.add_mul, Nat.one_mul]
  omega

/-- Models get_sonarqube_component_tree_metrics (src/server.py lines 264-361):
the guards for an empty project_key (lines 277-279) and an empty metric_keys
list (lines 281-283) return the empty dict before any header construction or
request (0 page requests); headers may raise NameError when no token is
configured (lines 285-291); then the pagination loop runs from page 1 with no
known total and empty results. The metric keys and the optional component
type filter only shape the request parameters and are abstracted into the
page server function. -/
def get_sonarqube_component_tree_metrics (token : Option String)
    (server : Nat → PageResp) (project_key : String) (metric_keys : List String)
    (page_size : Nat) (hps : 0 < page_size) : Except PyExc (Nat × CompDict) :=
  if project_key = "" then .ok (0, fun _ => none)
  else if metric_keys.isEmpty then .ok (0, fun _ => none)
  else
    match conditional_basic_headers token with
    | .error e => .error e
    | .ok _ => .ok (tree_loop server page_size hps none 1 (fun _ => none))

/-- Ceil-division characterization used for the pagination bound: for
positive ps, ceil(t/ps) = (t + ps - 1) / ps is at most `page` iff
`t ≤ page * ps`. -/
theorem ceilDiv_le_iff (t ps page : Nat) (hps : 0 < ps) :
    (t + ps - 1) / ps ≤ page ↔ t ≤ page * ps := by
  rw [Nat.div_le_iff_le_mul_add_pred hps]
  rw [Nat.mul_comm ps page]
  omega

/-- Helper: the first iteration behaves the same whether the total is still
unknown or already fixed at the first page's reported total, because the code
reads the reported total exactly when it is unknown. -/
theorem tree_loop_none_eq_some (server : Nat → PageResp) (ps : Nat)
    (hps : 0 < ps) (page : Nat) (acc : CompDict) :
    tree_loop server ps hps none page acc
      = tree_loop server ps hps (some ((server page).total)) page acc := by
  rw [tree_loop.eq_def, tree_loop.eq_def]
  simp only [Option.getD_none, Option.getD_some]

/-- Helper: once the total is fixed at `t`, the pagination loop makes at
least one page request, at most `max 1 m` of them where
`m = ceil(t/ps) + 1 - page` (quantitative termination), and exactly `m` when
every page from `page` to `ceil(t/ps)` is non-empty. -/
theorem tree_loop_count (server : Nat → PageResp) (ps : Nat) (hps : 0 < ps)
    (t : Nat) :
    ∀ (m page : Nat) (acc : CompDict), (t + ps - 1) / ps + 1 - page = m →
      1 ≤ (tree_loop server ps hps (some t) page acc).1
      ∧ (tree_loop server ps hps (some t) page acc).1 ≤ max 1 m
      ∧ ((∀ q, page ≤ q → q ≤ (t + ps - 1) / ps →
            (server q).components.isEmpty = false) →
          page ≤ (t + ps - 1) / ps →
          (tree_loop server ps hps (some t) page acc).1 = m) := by
  intro m
  induction m with
  | zero =>
      intro page acc hm
      have hle : t ≤ page * ps := by
        rw [← ceilDiv_le_iff t ps page hps]
        omega
      have hcount : (tree_loop server ps hps (some t) page acc).1 = 1 := by
        rw [tree_loop.eq_def]
        cases hempty : (server page).components.isEmpty
        · simp [hempty, Option.getD_some, hle]
        · simp [hempty]
      refine ⟨by omega, by omega, ?_⟩
      intro _ hpage
      omega
  | succ m ih =>
      intro page acc hm
      cases hempty : (server page).components.isEmpty with
      | true =>
          have hcount : (tree_loop server ps hps (some t) page acc).1 = 1 := by
            rw [tree_loop.eq_def]
            simp [hempty]
          refine ⟨by omega, by omega, ?_⟩
          intro hne hpage
          have := hne page le_rfl hpage
          rw [hempty] at this
          cases this
      | false =>
          by_cases hle : t ≤ page * ps
          · have hceil : (t + ps - 1) / ps ≤ page := (ceilDiv_le_iff t ps page hps).mpr hle
            have hcount : (tree_loop server ps hps (some t) page acc).1 = 1 := by
              rw [tree_loop.eq_def]
              simp [hempty, Option.getD_some, hle]
            refine ⟨by omega, by omega, ?_⟩
            intro _ hpage
            omega
          · have hlt : page < (t + ps - 1) / ps := by
              by_contra hcon
              push_neg at hcon
              exact hle ((ceilDiv_le_iff t ps page hps).mp hcon)
            obtain ⟨acc2, hacc2⟩ : ∃ a : CompDict,
                a = (server page).components.foldl
                  (fun r c => fun p =>
                    if p = pathOf c then some (normalizeMeasures c.measures) else r p)
                  acc := ⟨_, rfl⟩
            have hcount : (tree_loop server ps hps (some t) page acc).1
                = (tree_loop server ps hps (some t) (page + 1) acc2).1 + 1 := by
              rw [hacc2, tree_loop.eq_def]
              simp only [hempty, Option.getD_some, Bool.false_eq_true, if_false,
                dif_neg hle]
            have harg : (t + ps - 1) / ps + 1 - (page + 1) = m := by omega
            have ihm := ih (page + 1) acc2 harg
            refine ⟨by omega, ?_, ?_⟩
            · have h2 := ihm.2.1
              rcases Nat.eq_zero_or_pos m with hm0 | hmpos
              · omega
              · have hmaxm : max 1 m = m := by omega
                rw [hmaxm] at h2
                have hmaxm1 : max 1 (m + 1) = m + 1 := by omega
                omega
            · intro hne hpage
              have hne2 : ∀ q, page + 1 ≤ q → q ≤ (t + ps - 1) / ps →
                  (server q).components.isEmpty = false := by
                intro q hq1 hq2
                exact hne q (by omega) hq2
              have hpage2 : page + 1 ≤ (t + ps - 1) / ps := by omega
              have h3 := ihm.2.2 hne2 hpage2
              omega

/-- Option.map distributes over Option.or. -/
theorem option_map_or {α β : Type} (f : α → β) (a b : Option α) :
    (a.or b).map f = (a.map f).or (b.map f) := by
  cases a <;> rfl

/-- Helper: the results dictionary the pagination loop returns holds, at
every path, the normalized metrics of the last component with that path among
the components of the pages actually fetched (pages `page` through
`page + requests - 1`, in fetch order), falling back to the initial
accumulator: last-write-wins across pages and within a page. -/
theorem tree_loop_results (server : Nat → PageResp) (ps : Nat) (hps : 0 < ps)
    (t : Nat) :
    ∀ (m page : Nat) (acc : CompDict) (p : String),
      (t + ps - 1) / ps + 1 - page = m →
      (tree_loop server ps hps (some t) page acc).2 p
        = ((((List.range' page (tree_loop server ps hps (some t) page acc).1).flatMap
              (fun q => (server q).components)).reverse.find?
              (fun c => decide (pathOf c = p))).map
            (fun c => normalizeMeasures c.measures)).or (acc p) := by
  intro m
  induction m with
  | zero =>
      intro page acc p hm
      have hle : t ≤ page * ps := by
        rw [← ceilDiv_le_iff t ps page hps]
        omega
      cases hempty : (server page).components.isEmpty with
      | true =>
          have hstep : tree_loop server ps hps (some t) page acc = (1, acc) := by
            rw [tree_loop.eq_def]
            simp [hempty]
          have hfst : (tree_loop server ps hps (some t) page acc).1 = 1 := by
            rw [hstep]
          have hsnd : (tree_loop server ps hps (some t) page acc).2 = acc := by
            rw [hstep]
          rw [hsnd, hfst]
          have hnil : (server page).components = [] := by
            rwa [List.isEmpty_iff] at hempty
          simp [List.range'_one, hnil, Option.or]
      | false =>
          have hstep : tree_loop server ps hps (some t) page acc
              = (1, (server page).components.foldl
                  (fun r c => fun p =>
                    if p = pathOf c then some (normalizeMeasures c.measures) else r p)
                  acc) := by
            rw [tree_loop.eq_def]
            simp [hempty, Option.getD_some, hle]
          have hfst : (tree_loop server ps hps (some t) page acc).1 = 1 := by
            rw [hstep]
          have hsnd : (tree_loop server ps hps (some t) page acc).2
              = (server page).components.foldl
                  (fun r c => fun p =>
                    if p = pathOf c then some (normalizeMeasures c.measures) else r p)
                  acc := by
            rw [hstep]
          rw [hsnd, hfst]
          rw [foldl_pointUpdate pathOf (fun c => normalizeMeasures c.measures)]
          simp [List.range'_one]
  | succ m ih =>
      intro page acc p hm
      cases hempty : (server page).components.isEmpty with
      | true =>
          have hstep : tree_loop server ps hps (some t) page acc = (1, acc) := by
            rw [tree_loop.eq_def]
            simp [hempty]
          have hfst : (tree_loop server ps hps (some t) page acc).1 = 1 := by
            rw [hstep]
          have hsnd : (tree_loop server ps hps (some t) page acc).2 = acc := by
            rw [hstep]
          rw [hsnd, hfst]
          have hnil : (server page).components = [] := by
            rwa [List.isEmpty_iff] at hempty
          simp [List.range'_one, hnil, Option.or]
      | false =>
          by_cases hle : t ≤ page * ps
          · have hstep : tree_loop server ps hps (some t) page acc
                = (1, (server page).components.foldl
                    (fun r c => fun p =>
                      if p = pathOf c then some (normalizeMeasures c.measures) else r p)
                    acc) := by
              rw [tree_loop.eq_def]
              simp [hempty, Option.getD_some, hle]
            have hfst : (tree_loop server ps hps (some t) page acc).1 = 1 := by
              rw [hstep]
            have hsnd : (tree_loop server ps hps (some t) page acc).2
                = (server page).components.foldl
                    (fun r c => fun p =>
                      if p = pathOf c then some (normalizeMeasures c.measures) else r p)
                    acc := by
              rw [hstep]
            rw [hsnd, hfst]
            rw [foldl_pointUpdate pathOf (fun c => normalizeMeasures c.measures)]
            simp [List.range'_one]
          · obtain ⟨acc2, hacc2⟩ : ∃ a : CompDict,
                a = (server page).components.foldl
                  (fun r c => fun p =>
                    if p = pathOf c then some (normalizeMeasures c.measures) else r p)
                  acc := ⟨_, rfl⟩
            have hstep : tree_loop server ps hps (some t) page acc
                = ((tree_loop server ps hps (some t) (page + 1) acc2).1 + 1,
                   (tree_loop server ps hps (some t) (page + 1) acc2).2) := by
              rw [hacc2, tree_loop.eq_def]
              simp only [hempty, Option.getD_some, Bool.false_eq_true, if_false,
                dif_neg hle]
            have hfst : (tree_loop server ps hps (some t) page acc).1
                = (tree_loop server ps hps (some t) (page + 1) acc2).1 + 1 := by
              rw [hstep]
            have hsnd : (tree_loop server ps hps (some t) page acc).2
                = (tree_loop server ps hps (some t) (page + 1) acc2).2 := by
              rw [hstep]
            have harg : (t + ps - 1) / ps + 1 - (page + 1) = m := by omega
            have ihm := ih (page + 1) acc2 p harg
            rw [hsnd, hfst]
            rw [ihm]
            have hacc2p : acc2 p
                = (((server page).components.reverse.find?
                    (fun c => decide (pathOf c = p))).map
                  (fun c => normalizeMeasures c.measures)).or (acc p) := by
              rw [hacc2]
              rw [foldl_pointUpdate pathOf (fun c => normalizeMeasures c.measures)]
            rw [hacc2p]
            rw [List.range'_succ]
            rw [List.flatMap_cons]
            rw [List.reverse_append]
            rw [List.find?_append]
            rw [option_map_or]
            rw [Option.or_assoc]

/-- Helper: with a non-empty project key, a non-empty metric key list and a
configured token, the component-tree operation reaches and returns the
pagination loop's result. -/
theorem tree_op_ok (tk pk : String) (mks : List String)
    (server : Nat → PageResp) (ps : Nat) (hps : 0 < ps)
    (hpk : pk ≠ "") (hmk : mks.isEmpty = false) :
    get_sonarqube_component_tree_metrics (some tk) server pk mks ps hps
      = .ok (tree_loop server ps hps none 1 (fun _ => none)) := by
  simp [get_sonarqube_component_tree_metrics, hpk, hmk, conditional_basic_headers]

/-- C4: for every reported total and every pageSize at least 1, the
component-tree pagination loop terminates (tree_loop is total, and its number
of page requests is bounded by max 1 ceil(total/pageSize)); when the total
reported on page 1 is at least 1 and every page up to ceil(total/pageSize)
returns components, the number of page requests is exactly
ceil(total/pageSize); a page with zero components ends the loop early, which
is why the exact count needs the non-emptiness hypothesis while the upper
bound holds always. -/
theorem component_tree_pagination_count (tk pk : String) (mks : List String)
    (server : Nat → PageResp) (ps : Nat) (hps : 0 < ps)
    (hpk : pk ≠ "") (hmk : mks.isEmpty = false) :
    get_sonarqube_component_tree_metrics (some tk) server pk mks ps hps
        = .ok (tree_loop server ps hps none 1 (fun _ => none))
    ∧ 1 ≤ (tree_loop server ps hps none 1 (fun _ => none)).1
    ∧ (tree_loop server ps hps none 1 (fun _ => none)).1
        ≤ max 1 (((server 1).total + ps - 1) / ps)
    ∧ (1 ≤ (server 1).total →
        (∀ q, 1 ≤ q → q ≤ ((server 1).total + ps - 1) / ps →
          (server q).components.isEmpty = false) →
        (tree_loop server ps hps none 1 (fun _ => none)).1
          = ((server 1).total + ps - 1) / ps) := by
  refine ⟨tree_op_ok tk pk mks server ps hps hpk hmk, ?_, ?_, ?_⟩
  · rw [tree_loop_none_eq_some]
    exact (tree_loop_count server ps hps ((server 1).total)
      (((server 1).total + ps - 1) / ps) 1 (fun _ => none) (Nat.add_sub_cancel _ _)).1
  · rw [tree_loop_none_eq_some]
    exact (tree_loop_count server ps hps ((server 1).total)
      (((server 1).total + ps - 1) / ps) 1 (fun _ => none) (Nat.add_sub_cancel _ _)).2.1
  · intro ht hne
    rw [tree_loop_none_eq_some]
    have hceil1 : 1 ≤ ((server 1).total + ps - 1) / ps := by
      rw [Nat.one_le_div_iff hps]
      omega
    exact (tree_loop_count server ps hps ((server 1).total)
      (((server 1).total + ps - 1) / ps) 1 (fun _ => none) (Nat.add_sub_cancel _ _)).2.2 hne hceil1

/-- Witness for component_tree_pagination_count: a server reporting total 3
with one component per page, fetched with pageSize 1, is asked for exactly
3 pages (the scenario of spec section 8). -/
theorem component_tree_pagination_count_witness :
    (0 : Nat) < 1 ∧ ("proj" : String) ≠ "" ∧
    (tree_loop
        (fun _ => { total := 3,
                    components := [{ key := "k", path := some "f",
                                     measures := [] }] })
        1 Nat.one_pos none 1 (fun _ => none)).1 = 3 := by
  refine ⟨Nat.one_pos, by decide, ?_⟩
  have h := component_tree_pagination_count "tok" "proj" ["bugs"]
    (fun _ => { total := 3,
                components := [{ key := "k", path := some "f",
                                 measures := [] }] })
    1 Nat.one_pos (by decide) (by decide)
  have h4 := h.2.2.2 (by decide) (fun q _ _ => rfl)
  simpa using h4

/-- C6: the component-tree result is a mapping keyed by ComponentPath (the
component's path, falling back to its key - see pathOf), so it has exactly
one entry per path; the entry for every path `p` is the normalized metrics of
the last component with that path among the components of all fetched pages
in fetch order: when two pages return the same path, the later page's metrics
win. -/
theorem component_tree_last_write_wins (tk pk : String) (mks : List String)
    (server : Nat → PageResp) (ps : Nat) (hps : 0 < ps)
    (hpk : pk ≠ "") (hmk : mks.isEmpty = false) :
    get_sonarqube_component_tree_metrics (some tk) server pk mks ps hps
        = .ok (tree_loop server ps hps none 1 (fun _ => none))
    ∧ ∀ p, (tree_loop server ps hps none 1 (fun _ => none)).2 p
        = (((List.range' 1 (tree_loop server ps hps none 1 (fun _ => none)).1).flatMap
              (fun q => (server q).components)).reverse.find?
              (fun c => decide (pathOf c = p))).map
            (fun c => normalizeMeasures c.measures) := by
  refine ⟨tree_op_ok tk pk mks server ps hps hpk hmk, ?_⟩
  intro p
  rw [tree_loop_none_eq_some]
  have h := tree_loop_results server ps hps ((server 1).total)
    (((server 1).total + ps - 1) / ps) 1 (fun _ => none) p (Nat.add_sub_cancel _ _)
  rw [h]
  cases (((List.range' 1
      (tree_loop server ps hps (some ((server 1).total)) 1 (fun _ => none)).1).flatMap
      (fun q => (server q).components)).reverse.find?
      (fun c => decide (pathOf c = p))) with
  | none => rfl
  | some c => rfl

/-- Witness for component_tree_last_write_wins: two pages (total 2, pageSize
1) both return a component with path "a"; the final mapping holds the second
page's normalized metrics (bugs = "2"), demonstrating last-write-wins. -/
theorem component_tree_last_write_wins_witness :
    ((tree_loop
        (fun q => { total := 2,
                    components := [{ key := "k", path := some "a",
                                     measures := [{ metric := "bugs",
                                                    value := some (if q = 1 then "1" else "2") }] }] })
        1 Nat.one_pos none 1 (fun _ => none)).2 "a").map (fun f => f "bugs")
      = some (some "2") := by
  have h := component_tree_last_write_wins "tok" "proj" ["bugs"]
    (fun q => { total := 2,
                components := [{ key := "k", path := some "a",
                                 measures := [{ metric := "bugs",
                                                value := some (if q = 1 then "1" else "2") }] }] })
    1 Nat.one_pos (by decide) (by decide)
  rw [h.2 "a"]
  rw [tree_loop_none_eq_some]
  have hc : (tree_loop
      (fun q => { total := 2,
                  components := [{ key := "k", path := some "a",
                                   measures := [{ metric := "bugs",
                                                  value := some (if q = 1 then "1" else "2") }] }] })
      1 Nat.one_pos (some 2) 1 (fun _ => none)).1 = 2 := by
    rw [tree_loop.eq_def]
    norm_num
    rw [tree_loop.eq_def]
    norm_num
  rw [hc]
  decide

/-- An issue record as projected by get_project_issues (src/server.py lines
489-497): the seven passthrough fields, each read with `.get` and so
optional. -/
structure Issue where
  key : Option String
  severity : Option String
  type : Option String
  message : Option String
  component : Option String
  line : Option Nat
  status : Option String
  deriving DecidableEq, Repr

/-- Models the projection of src/server.py lines 489-497: each returned issue
keeps exactly the seven listed fields. -/
def formatIssue (i : Issue) : Issue :=
  { key := i.key, severity := i.severity, type := i.type, message := i.message,
    component := i.component, line := i.line, status := i.status }

/-- Models a SonarQube server that honors the requested page size `ps` on
/api/issues/search: of the `matching` issues it holds, it returns the first
`min ps matching.length` (one page). The client requests
`ps = min(limit, 500)` (line 460), so this is what get_project_issues
receives. -/
def conformingIssuesServer (matching : List Issue) (ps : Nat) : List Issue :=
  matching.take ps

/-- The success result of get_project_issues (src/server.py lines 499-509). -/
structure IssuesResult where
  project : String
  total_issues : Nat
  issues : List Issue
  has_more : Bool
  deriving DecidableEq, Repr

/-- A get_project_issues return value: either one of the error dictionaries
the code returns (lines 448-449 and 483-487) or the success dictionary. -/
inductive IssuesOutcome where
  | errorDict (msg : String)
  | result (r : IssuesResult)
  deriving DecidableEq, Repr

/-- Models get_project_issues (src/server.py lines 434-526) with a conforming
issues server: an empty project_key returns the error dictionary (not an
exception) before any request; the page size sent is `min(limit, 500)` (the
API safety cap of line 460); when the server returns no issues and the
project key is not among the known project keys, a not-found error dictionary
is returned; otherwise the result carries `formatted[:limit]` as the issue
list and `len(formatted) > limit` as has_more. -/
def get_project_issues (matching : List Issue) (knownKeys : List String)
    (project_key : String) (limit : Nat) : IssuesOutcome :=
  if project_key = "" then .errorDict "Missing project key."
  else
    let issues := conformingIssuesServer matching (min limit 500)
    if issues.isEmpty ∧ project_key ∉ knownKeys then
      .errorDict ("Project '" ++ project_key ++ "' not found.")
    else
      let formatted := issues.map formatIssue
      .result { project := project_key,
                total_issues := formatted.length,
                issues := formatted.take limit,
                has_more := decide (formatted.length > limit) }

/-- A concrete issue used in the C1 scenario. -/
def sampleIssue : Issue :=
  { key := some "I", severity := some "MAJOR", type := some "BUG",
    message := some "m", component := some "c", line := some 1,
    status := some "OPEN" }

/-- C1 counterexample: with limit = 5 and 8 matching server-side issues the
result does contain exactly 5 issues, but has_more is false, not true: the
request caps the page size at min(limit, 500) = 5, so the server returns only
5 issues and `len(formatted) > limit` cannot hold. -/
theorem get_project_issues_hasMore_counterexample :
    get_project_issues (List.replicate 8 sampleIssue) ["proj"] "proj" 5
      = .result { project := "proj",
                  total_issues := 5,
                  issues := List.replicate 5 (formatIssue sampleIssue),
                  has_more := false } := by
  decide

/-- C1 amended: for every call with a non-empty project key and limit ≤ 500
that reaches the success branch (the server page is non-empty or the project
is known), the returned issue list is the truncation `matching[:limit]` and
has_more is false: because the request itself is capped at
`ps = min(limit, 500)`, a server honoring the page size never returns more
than `limit` issues, so `has_more = len(formatted) > limit` cannot report the
remaining matching issues. -/
theorem get_project_issues_truncation (matching : List Issue)
    (knownKeys : List String) (pk : String) (limit : Nat)
    (hpk : pk ≠ "") (hlim : limit ≤ 500)
    (hne : (matching.take limit).isEmpty = false ∨ pk ∈ knownKeys) :
    get_project_issues matching knownKeys pk limit
      = .result { project := pk,
                  total_issues := (matching.take limit).length,
                  issues := (matching.take limit).map formatIssue,
                  has_more := false } := by
  have hmin : min limit 500 = limit := Nat.min_eq_left hlim
  have hserver : conformingIssuesServer matching (min limit 500)
      = matching.take limit := by
    rw [hmin]
    rfl
  have hguard : ¬((matching.take limit).isEmpty ∧ pk ∉ knownKeys) := by
    rcases hne with h | h
    · intro hcon
      rw [h] at hcon
      exact Bool.false_ne_true hcon.1
    · intro hcon
      exact hcon.2 h
  have hlen : ((matching.take limit).map formatIssue).length ≤ limit := by
    rw [List.length_map]
    exact List.length_take_le _ _
  simp only [get_project_issues, if_neg hpk, hserver, if_neg hguard]
  congr 1
  rw [List.take_of_length_le hlen]
  rw [List.length_map]
  have hfalse : decide (((matching.take limit).map formatIssue).length > limit)
      = false := decide_eq_false (Nat.not_lt.mpr hlen)
  rw [List.length_map] at hfalse
  rw [hfalse]

/-- Witness for get_project_issues_truncation at the C1 scenario: 8 matching
issues, limit 5 - the result holds exactly the first 5 and has_more is
false. -/
theorem get_project_issues_truncation_witness :
    ("proj" : String) ≠ "" ∧ (5 : Nat) ≤ 500 ∧
    get_project_issues (List.replicate 8 sampleIssue) ["proj"] "proj" 5
      = .result { project := "proj",
                  total_issues := ((List.replicate 8 sampleIssue).take 5).length,
                  issues := ((List.replicate 8 sampleIssue).take 5).map formatIssue,
                  has_more := false } := by
  refine ⟨by decide, by decide, ?_⟩
  exact get_project_issues_truncation (List.replicate 8 sampleIssue) ["proj"]
    "proj" 5 (by decide) (by decide) (Or.inl (by decide))

/-- A project record of /api/projects/search, as read by list_projects
(src/server.py lines 389-412): optional key, name and visibility fields. -/
structure ProjectRec where
  key : Option String
  name : Option String
  visibility : Option String
  deriving DecidableEq, Repr

/-- The result dictionary of list_projects (src/server.py lines 403-412):
the count and the projected records. -/
structure ListProjectsResult where
  total : Nat
  projects : List ProjectRec
  deriving DecidableEq, Repr

/-- Models the httpx.HTTPStatusError handler of list_projects (src/server.py
lines 416-425); its messages coincide with get_status's handler. -/
def classify_list_projects (st : Nat) : PyExc :=
  if st = 401 then .permissionError "Authentication failed. Check your token."
  else if st = 403 then .permissionError "Access denied. Check token roles."
  else .runtimeError ("SonarQube API error: " ++ toString st)

/-- The query filter of list_projects (src/server.py lines 392-397): keep the
projects whose lowercased name concatenated with lowercased key contains the
lowercased query as a substring. -/
def projectMatches (q : String) (p : ProjectRec) : Bool :=
  decide (List.IsInfix (pyLower q).toList
    ((pyLower (p.name.getD "") ++ pyLower (p.key.getD "")).toList))

/-- Models list_projects (src/server.py lines 363-431): a missing token is
rejected locally with ValueError before any request (lines 371-372); then one
request; a truthy query applies the in-memory case-insensitive substring
filter; the result carries the count and the three projected fields of each
kept project. -/
def list_projects (token : Option String) (url : String)
    (server : HttpOutcome (List ProjectRec)) (query : Option String) :
    Except PyExc ListProjectsResult :=
  match token with
  | none => .error (.valueError "Missing SonarQube token. Cannot authenticate.")
  | some _ =>
      match server with
      | .ok all_projects =>
          let projects :=
            match query with
            | some q => if q = "" then all_projects
                        else all_projects.filter (projectMatches q)
            | none => all_projects
          .ok { total := projects.length,
                projects := projects.map (fun p =>
                  { key := p.key, name := p.name, visibility := p.visibility }) }
      | .httpError st => .error (classify_list_projects st)
      | .netError =>
          .error (.connectionError ("Failed to connect to SonarQube at " ++ url))

/-- C3 counterexample: with no token configured, requests are not sent
unauthenticated. get_status fails locally with the NameError from the unbound
`base64_token` local whatever the server would answer (here a server that
would answer 200 UP), and list_projects synthesizes a local ValueError before
any request rather than surfacing a server rejection. -/
theorem no_token_unauthenticated_counterexample :
    get_status none "http://sq" (.ok (some "UP"))
        = .error (.nameError "name 'base64_token' is not defined")
    ∧ list_projects none "http://sq" (.ok []) none
        = .error (.valueError "Missing SonarQube token. Cannot authenticate.")
    ∧ (get_status none "http://sq" (.ok (some "UP"))).isOk = false := by
  refine ⟨rfl, rfl, rfl⟩

/-- C3 amended: when no token is configured, no operation sends an
unauthenticated request. get_status, get_sonarqube_metrics,
get_sonarqube_metrics_history and get_sonarqube_component_tree_metrics all
fail locally with NameError while interpolating the never-assigned
`base64_token` into the Authorization header, independent of any server
response; list_projects raises a local ValueError before any request; and
get_project_issues always sends an Authorization header - with no token it
encodes the literal string "None:" (f-string interpolation of Python None),
still not an unauthenticated request. -/
theorem no_token_behavior (url pk : String) (mks : List String) (ps : Nat)
    (hps : 0 < ps) (stServer : HttpOutcome (Option String))
    (mServer : HttpOutcome MetricsBody) (hServer : String → HttpOutcome HistBody)
    (tServer : Nat → PageResp) (lServer : HttpOutcome (List ProjectRec))
    (q : Option String) (hpk : pk ≠ "") (hmk : mks.isEmpty = false) :
    get_status none url stServer
        = .error (.nameError "name 'base64_token' is not defined")
    ∧ get_sonarqube_metrics none url mServer pk
        = .error (.nameError "name 'base64_token' is not defined")
    ∧ get_sonarqube_metrics_history none url hServer pk
        = .error (.nameError "name 'base64_token' is not defined")
    ∧ get_sonarqube_component_tree_metrics none tServer pk mks ps hps
        = .error (.nameError "name 'base64_token' is not defined")
    ∧ list_projects none url lServer q
        = .error (.valueError "Missing SonarQube token. Cannot authenticate.")
    ∧ conditional_basic_headers none
        = .error (.nameError "name 'base64_token' is not defined") := by
  refine ⟨rfl, ?_, ?_, ?_, rfl, rfl⟩
  · simp [get_sonarqube_metrics, hpk, conditional_basic_headers]
  · simp [get_sonarqube_metrics_history, hpk, conditional_basic_headers]
  · simp [get_sonarqube_component_tree_metrics, hpk, hmk, conditional_basic_headers]

/-- Witness for no_token_behavior at concrete inputs: the metrics operation
with no token and a server that would answer 200 fails with the NameError. -/
theorem no_token_behavior_witness :
    ("proj" : String) ≠ "" ∧ (["bugs"] : List String).isEmpty = false ∧
    get_sonarqube_metrics none "http://sq" (.ok { component := none }) "proj"
      = .error (.nameError "name 'base64_token' is not defined") := by
  refine ⟨by decide, by decide, ?_⟩
  exact (no_token_behavior "http://sq" "proj" ["bugs"] 1 Nat.one_pos
    (.ok (some "UP")) (.ok { component := none })
    (fun _ => .ok { measures := none })
    (fun _ => { total := 0, components := [] }) (.ok []) none
    (by decide) (by decide)).2.1

/-- C2 counterexample: invoked with an empty projectKey, get_sonarqube_metrics
does not fail at all - it returns a successful empty dictionary even against
a server that would answer HTTP 500, and the code's closed exception set
(PyKind) has no InvalidInput member; get_project_issues returns an
error-message dictionary, also not a raised error kind. -/
theorem empty_projectKey_invalidInput_counterexample :
    get_sonarqube_metrics (some "tok") "http://sq" (.httpError 500) ""
        = .ok emptyStrDict
    ∧ (get_sonarqube_metrics (some "tok") "http://sq" (.httpError 500) "").isOk
        = true
    ∧ get_project_issues [] [] "" 10 = .errorDict "Missing project key." := by
  refine ⟨rfl, rfl, rfl⟩

/-- C2 amended: every project-scoped operation invoked with an empty
projectKey, and componentTreeMetrics invoked with an empty metricKeys list,
returns before any network call (the result is the same for every server
argument, and the component-tree instrumentation records 0 page requests) -
but it returns an empty result dictionary (get_project_issues: an
error-message dictionary), it does not fail with an InvalidInput error kind;
no such kind exists in the code. -/
theorem empty_input_guard (token : Option String) (url pk : String)
    (mServer : HttpOutcome MetricsBody) (hServer : String → HttpOutcome HistBody)
    (tServer : Nat → PageResp) (ps : Nat) (hps : 0 < ps) (mks : List String)
    (matching : List Issue) (known : List String) (lim : Nat) :
    get_sonarqube_metrics token url mServer "" = .ok emptyStrDict
    ∧ get_sonarqube_metrics_history token url hServer "" = .ok (fun _ => none)
    ∧ get_sonarqube_component_tree_metrics token tServer "" mks ps hps
        = .ok (0, fun _ => none)
    ∧ get_sonarqube_component_tree_metrics token tServer pk [] ps hps
        = .ok (0, fun _ => none)
    ∧ get_project_issues matching known "" lim
        = .errorDict "Missing project key." := by
  refine ⟨rfl, rfl, rfl, ?_, rfl⟩
  by_cases h : pk = "" <;>
    simp [get_sonarqube_component_tree_metrics, h]

/-- Witness for empty_input_guard at concrete inputs: the guards fire with
pageSize 10 (the default), an HTTP-500 server and a non-empty project key for
the empty-metricKeys case. -/
theorem empty_input_guard_witness :
    (0 : Nat) < 10 ∧
    get_sonarqube_component_tree_metrics (some "tok")
        (fun _ => { total := 7,
                    components := [{ key := "k", path := none,
                                     measures := [] }] })
        "proj" [] 10 (by decide)
      = .ok (0, fun _ => none) := by
  refine ⟨by decide, ?_⟩
  exact (empty_input_guard (some "tok") "http://sq" "proj"
    (.httpError 500) (fun _ => .httpError 500)
    (fun _ => { total := 7,
                components := [{ key := "k", path := none,
                                 measures := [] }] })
    10 (by decide) [] [] [] 10).2.2.2.1
